import Mathlib

/-!
Verification of the serial command/response transaction layer of an
LED-control program (`serial_controller.py`, `simple_ai_agent.py`).

The transaction core `SerialController.send_command` is embedded as a pure
function over the lines buffered on the link: `rawLines` are the
newline-terminated lines available within the settle window (drained by the
`while in_waiting > 0` loop) and `delayed` is the line the single fallback
`readline()` would return (`none` when `in_waiting == 0` at that point).
-/

namespace LlmToMcu

/-- Python `str.strip()` on the underlying character list: drop whitespace
from both ends. -/
def stripChars (cs : List Char) : List Char :=
  ((cs.dropWhile Char.isWhitespace).reverse.dropWhile Char.isWhitespace).reverse

/-- Python `s.strip()` on strings, as used on every line read in
`send_command` (lines 46 and 63). -/
def pyStrip (s : String) : String :=
  String.mk (stripChars s.data)

/-- Python `s.lower()`, used for the case-insensitive echo comparison
(lines 54 and 60): lower-case every character. -/
def pyLower (s : String) : String :=
  String.mk (s.data.map Char.toLower)

/-- Python `s.upper()`, used by `parse_intent` on the classifier reply. -/
def pyUpper (s : String) : String :=
  String.mk (s.data.map Char.toUpper)

/-- The prompt-glyph test `response not in ['>', '$', '#']` (lines 55 and 64),
negated: `true` exactly on the three one-character prompt strings. -/
def isPromptGlyph (s : String) : Bool :=
  s == ">" || s == "$" || s == "#"

/-- The content filter of lines 54-56: not a case-insensitive echo of the
command, not a prompt glyph, and longer than one character. -/
def isContent (command response : String) : Bool :=
  (pyLower response != pyLower command)
    && !(isPromptGlyph response)
    && decide (response.length > 1)

/-- The drain loop of lines 44-48: each buffered line is stripped and kept
only if non-empty (Python truthiness of `if line:`). -/
def drainLines (rawLines : List String) : List String :=
  (rawLines.map pyStrip).filter (fun l => l != "")

/-- Lines 61-66: the delayed single read of the fallback. The argument is the
line the extra `readline()` returns (`none` when `in_waiting == 0`); the read
line is stripped and returned only if non-empty and not a prompt glyph. -/
def delayedRead (delayed : Option String) : Option String :=
  match delayed with
  | some raw =>
      let actual := pyStrip raw
      if actual != "" && !(isPromptGlyph actual) then some actual else none
  | none => none

/-- `SerialController.send_command` (lines 30-68): flush (modelled by taking
only this transaction's lines), write, drain, return the first content line,
else run the delayed-read fallback when the first drained line is a
case-insensitive echo of the command, else `None`. -/
def send_command (command : String) (rawLines : List String)
    (delayed : Option String) : Option String :=
  let responses := drainLines rawLines
  match responses.find? (fun r => isContent command r) with
  | some r => some r
  | none =>
      match responses with
      | r0 :: _ =>
          if pyLower r0 == pyLower command then delayedRead delayed else none
      | [] => none

/-- The outcome of the raw I/O of one transaction: either the lines the link
delivered, or an exception raised somewhere in the send/receive cycle. -/
inductive LinkOutcome where
  | ok (rawLines : List String) (delayed : Option String)
  | failure (msg : String)
deriving DecidableEq

/-- `send_command` including its `except Exception` handler (lines 70-72):
any exception during the cycle is caught, a diagnostic is printed, and
`None` is returned. -/
def send_command_caught (command : String) (ev : LinkOutcome) : Option String :=
  match ev with
  | .ok rawLines delayed => send_command command rawLines delayed
  | .failure _ => none

/-- `send_command` including the buffer flush of lines 32-33: `flushInput()`
discards every line left unread by a prior transaction, so only this
transaction's device output is drained. -/
def flushInput (_staleBuffer : List String) : List String := []

/-- One transaction run against a buffer still holding `staleBuffer` from a
prior transaction: the flush empties it before the command is written, and
the drain then sees only `deviceLines`. -/
def send_command_after (command : String) (staleBuffer : List String)
    (deviceLines : List String) (delayed : Option String) : Option String :=
  send_command command (flushInput staleBuffer ++ deviceLines) delayed

/-- Result of `SerialController.__init__` (lines 14-20). The code either
stores the open port or, on `SerialException`, prints and calls
`sys.exit(1)`. The constructor `connectionError` models the typed failure
the spec asks for; the embedded code never produces it. -/
inductive InitResult where
  | connected (port : String) (baudrate : Nat) (timeout : Nat)
  | exitProcess (code : Nat)
  | connectionError (msg : String)
deriving DecidableEq

/-- `SerialController.__init__`: `openOk` is whether `serial.Serial(...)`
succeeds; on failure the process exits with code 1. -/
def serialController_init (port : String) (baudrate timeout : Nat)
    (openOk : Bool) : InitResult :=
  if openOk then .connected port baudrate timeout else .exitProcess 1

/-- The underlying pyserial port handle: just its open flag, which is all
`close` inspects. -/
structure PortHandle where
  is_open : Bool
deriving DecidableEq

/-- `serial.Serial.close()` on the raw handle, modelled as raising when the
port is not open, so that the guard in `SerialController.close` is what makes
the wrapper safe. -/
def portClose (p : PortHandle) : Except String PortHandle :=
  if p.is_open then .ok ⟨false⟩ else .error "port not open"

/-- `SerialController.close` (lines 86-90): close the underlying port only
when it exists and is open; otherwise do nothing. Returns the new
`serial_port` attribute, or an error had one been raised. -/
def serialController_close (sp : Option PortHandle) :
    Except String (Option PortHandle) :=
  match sp with
  | some p => if p.is_open then (portClose p).map some else .ok (some p)
  | none => .ok none

/-- What the external classifier collaborator produced: a reply text, or an
exception from `ollama.chat`. -/
inductive ClassifierOutcome where
  | ok (text : String)
  | failure (msg : String)
deriving DecidableEq

/-- `SimpleAIAgent.parse_intent` (lines 42-47): strip and upper-case the
collaborator's reply; on any exception print and return `"UNKNOWN"`. -/
def parse_intent (outcome : ClassifierOutcome) : String :=
  match outcome with
  | .ok text => pyUpper (pyStrip text)
  | .failure _ => "UNKNOWN"

/-- The device as the transaction engine sees it for one command: the lines
it emits within the settle window and the line a fallback read would get. -/
def DeviceModel := String → List String × Option String

/-- One facade call (`led_on` / `led_off` / `get_status`): run
`send_command`; after the drain the connection buffer is empty. -/
def facade_send (dev : DeviceModel) (cmd : String) :
    Option String × List String :=
  ((send_command cmd (dev cmd).1 (dev cmd).2), [])

/-- `SimpleAIAgent.execute_command` (lines 49-67). `conn` is the connection
buffer when the serial controller is initialized, `none` otherwise. Returns
the reply string, the connection state afterwards, and the list of commands
written to the link during the call. -/
def execute_command (conn : Option (List String)) (dev : DeviceModel)
    (intent : String) : String × Option (List String) × List String :=
  match conn with
  | none => ("❌ Serial connection not initialized", none, [])
  | some buf =>
      if intent = "LED_ON" then
        let r := facade_send dev "led on"
        (match r.1 with
          | some s => "✅ LED turned ON. Device response: " ++ s
          | none => "✅ LED ON command sent",
         some r.2, ["led on"])
      else if intent = "LED_OFF" then
        let r := facade_send dev "led off"
        (match r.1 with
          | some s => "✅ LED turned OFF. Device response: " ++ s
          | none => "✅ LED OFF command sent",
         some r.2, ["led off"])
      else if intent = "STATUS" then
        let r := facade_send dev "status"
        (match r.1 with
          | some s => "📊 Device status: " ++ s
          | none => "📊 Status command sent",
         some r.2, ["status"])
      else
        ("❓ I didn't understand that. Try asking me to turn the LED on/off or check status.",
         some buf, [])

/-! ### Helper lemmas about stripping and draining -/

theorem head?_dropWhile_eq_some {α : Type} {p : α → Bool} {l : List α} {c : α}
    (h : (l.dropWhile p).head? = some c) : p c = false := by
  have hm := List.head?_dropWhile_not p l
  rw [h] at hm
  exact hm

theorem getLast?_dropWhile_of_ne_nil {α : Type} {p : α → Bool} (m : List α) :
    List.dropWhile p m ≠ [] → (List.dropWhile p m).getLast? = m.getLast? := by
  induction m with
  | nil => intro h; simp at h
  | cons a t ih =>
      intro h
      by_cases hp : p a
      · rw [List.dropWhile_cons_of_pos hp] at h ⊢
        rw [ih h]
        cases t with
        | nil => simp at h
        | cons b l => rw [List.getLast?_cons_cons]
      · rw [List.dropWhile_cons_of_neg hp]

theorem head?_stripChars (cs : List Char) {c : Char}
    (h : (stripChars cs).head? = some c) : c.isWhitespace = false := by
  unfold stripChars at h
  rw [List.head?_reverse] at h
  have hne :
      List.dropWhile Char.isWhitespace
        (List.dropWhile Char.isWhitespace cs).reverse ≠ [] := by
    intro e
    rw [e] at h
    simp at h
  rw [getLast?_dropWhile_of_ne_nil _ hne, List.getLast?_reverse] at h
  exact head?_dropWhile_eq_some h

theorem getLast?_stripChars (cs : List Char) {c : Char}
    (h : (stripChars cs).getLast? = some c) : c.isWhitespace = false := by
  unfold stripChars at h
  rw [List.getLast?_reverse] at h
  exact head?_dropWhile_eq_some h

theorem dropWhile_eq_self_of_head {α : Type} (l : List α) (p : α → Bool)
    (h : ∀ c, l.head? = some c → p c = false) : l.dropWhile p = l := by
  cases l with
  | nil => rfl
  | cons a t =>
      exact List.dropWhile_cons_of_neg (by simp [h a rfl])

theorem stripChars_eq_self {cs : List Char}
    (h1 : ∀ c, cs.head? = some c → c.isWhitespace = false)
    (h2 : ∀ c, cs.getLast? = some c → c.isWhitespace = false) :
    stripChars cs = cs := by
  unfold stripChars
  rw [dropWhile_eq_self_of_head cs _ h1]
  rw [dropWhile_eq_self_of_head cs.reverse _
    (fun c hc => h2 c (by rwa [List.head?_reverse] at hc))]
  exact List.reverse_reverse cs

theorem stripChars_idem (cs : List Char) :
    stripChars (stripChars cs) = stripChars cs :=
  stripChars_eq_self (fun _ h => head?_stripChars cs h)
    (fun _ h => getLast?_stripChars cs h)

theorem pyStrip_idem (s : String) : pyStrip (pyStrip s) = pyStrip s :=
  congrArg String.mk (stripChars_idem s.data)

theorem mem_drainLines {lines : List String} {r : String}
    (h : r ∈ drainLines lines) : (∃ raw ∈ lines, r = pyStrip raw) ∧ r ≠ "" := by
  unfold drainLines at h
  rw [List.mem_filter] at h
  obtain ⟨hm, hne⟩ := h
  rw [List.mem_map] at hm
  obtain ⟨raw, hraw, heq⟩ := hm
  exact ⟨⟨raw, hraw, heq.symm⟩, by simpa using hne⟩

/-- Provenance of a successful transaction: the returned string is non-empty
and is the stripped form of a line the device delivered, either within the
settle window or through the fallback read. -/
theorem send_command_some {c : String} {lines : List String}
    {delayed : Option String} {r : String}
    (h : send_command c lines delayed = some r) :
    r ≠ "" ∧ ∃ raw, (raw ∈ lines ∨ delayed = some raw) ∧ r = pyStrip raw := by
  cases hf : (drainLines lines).find? (fun x => isContent c x) with
  | some v =>
      have hv : send_command c lines delayed = some v := by
        simp [send_command, hf]
      rw [h] at hv
      obtain rfl : r = v := Option.some.inj hv
      obtain ⟨⟨raw, hraw, heq⟩, hne⟩ :=
        mem_drainLines (List.mem_of_find?_eq_some hf)
      exact ⟨hne, raw, Or.inl hraw, heq⟩
  | none =>
      have hs : send_command c lines delayed =
          (match drainLines lines with
            | r0 :: _ =>
                if pyLower r0 == pyLower c then delayedRead delayed else none
            | [] => none) := by
        simp [send_command, hf]
      rw [hs] at h
      cases hd : drainLines lines with
      | nil => rw [hd] at h; exact absurd h (by simp)
      | cons r0 t =>
          rw [hd] at h
          replace h :
              (if pyLower r0 == pyLower c then delayedRead delayed else none) =
                some r := h
          by_cases he : (pyLower r0 == pyLower c) = true
          · rw [if_pos he] at h
            cases delayed with
            | none => simp [delayedRead] at h
            | some raw =>
                by_cases hg :
                    (pyStrip raw != "" && !(isPromptGlyph (pyStrip raw))) = true
                · have hsome : some (pyStrip raw) = some r := by
                    simpa [delayedRead, hg] using h
                  obtain rfl : r = pyStrip raw := (Option.some.inj hsome).symm
                  refine ⟨?_, raw, Or.inr rfl, rfl⟩
                  have h1 := ((Bool.and_eq_true _ _).mp hg).1
                  simpa using h1
                · simp [delayedRead, hg] at h
          · rw [if_neg he] at h
            exact absurd h (by simp)

/-- For a bare prompt glyph as the device's only output, the transaction
yields no result: the glyph never passes the content filter, and the fallback
read finds nothing. -/
theorem send_command_prompt_only (c g : String) (hg : isPromptGlyph g = true) :
    send_command c [g] none = none := by
  have hgl : (g = ">" ∨ g = "$") ∨ g = "#" := by
    simpa [isPromptGlyph] using hg
  have hdrain : drainLines [g] = [g] := by
    rcases hgl with (rfl | rfl) | rfl <;> decide
  have hcont : isContent c g = false := by
    simp [isContent, hg]
  simp [send_command, hdrain, List.find?, hcont, delayedRead]

/-! ### Claim theorems -/

/-- C1: `send(C)` returns the first CONTENT line of the drained stream — the
first line that is not a case-insensitive echo of `C`, not a prompt glyph,
and longer than one character — and in particular a device whose only output
is a bare prompt glyph (`>`, `$`, `#`) yields `None`. -/
theorem sendCommand_first_content_and_prompt_only (c : String)
    (lines : List String) (delayed : Option String) (r g : String) :
    ((drainLines lines).find? (fun s => isContent c s) = some r →
      send_command c lines delayed = some r)
    ∧ (isPromptGlyph g = true → send_command c [g] none = none) :=
  ⟨fun hf => by simp [send_command, hf],
   fun hg => send_command_prompt_only c g hg⟩

theorem sendCommand_first_content_witness :
    send_command "led on" ["led on", "OK:ON"] none = some "OK:ON"
    ∧ send_command "status" [">"] none = none :=
  ⟨(sendCommand_first_content_and_prompt_only "led on" ["led on", "OK:ON"]
      none "OK:ON" ">").1 (by decide),
   (sendCommand_first_content_and_prompt_only "status" [">"] none "r"
      ">").2 (by decide)⟩

/-- C2 (counterexample): the fallback is not gated on the echo being the ONLY
line observed. With drained lines `["led on", ">"]` — the echo followed by a
prompt glyph — no content is found, the observed lines are not exactly the
echo, and yet the fallback runs and returns the delayed line `"OK"`. -/
theorem sendCommand_fallback_not_echo_only :
    send_command "led on" ["led on", ">"] (some "OK") = some "OK"
    ∧ drainLines ["led on", ">"] = ["led on", ">"]
    ∧ (drainLines ["led on", ">"]).find? (fun r => isContent "led on" r) =
        none := by
  decide

/-- C2 (amended): the fallback runs iff the first pass found no CONTENT line
and the FIRST drained line is a case-insensitive echo of the command (later
lines are not inspected); the fallback read returns the stripped delayed line
iff it is non-empty and not a bare prompt glyph. -/
theorem sendCommand_fallback_characterization (c : String)
    (lines : List String) (delayed : Option String) (raw : String) :
    ((drainLines lines).find? (fun r => isContent c r) = none →
      send_command c lines delayed =
        (match (drainLines lines).head? with
          | some r0 =>
              if pyLower r0 == pyLower c then delayedRead delayed else none
          | none => none))
    ∧ (delayedRead (some raw) = some (pyStrip raw) ↔
        (pyStrip raw ≠ "" ∧ isPromptGlyph (pyStrip raw) = false)) := by
  constructor
  · intro hf
    cases hd : drainLines lines with
    | nil => simp [send_command, hf, hd]
    | cons r0 t =>
        rw [hd] at hf
        simp [send_command, hd, hf]
  · constructor
    · intro h
      by_cases hg : (pyStrip raw != "" && !(isPromptGlyph (pyStrip raw))) = true
      · have := (Bool.and_eq_true _ _).mp hg
        exact ⟨by simpa using this.1, by simpa using this.2⟩
      · simp [delayedRead, hg] at h
    · intro ⟨h1, h2⟩
      simp [delayedRead, h1, h2]

theorem sendCommand_fallback_characterization_witness :
    send_command "led on" ["led on"] (some "OK:ON") =
      (match (drainLines ["led on"]).head? with
        | some r0 =>
            if pyLower r0 == pyLower "led on" then delayedRead (some "OK:ON")
            else none
        | none => none) :=
  (sendCommand_fallback_characterization "led on" ["led on"] (some "OK:ON")
    "OK:ON").1 (by decide)

/-- C3: a device that only echoes the command (up to letter casing) produces
no result: the echo is filtered out and the fallback read finds no further
line. -/
theorem sendCommand_echo_only_none (c raw : String)
    (h : pyLower (pyStrip raw) = pyLower c) :
    send_command c [raw] none = none := by
  by_cases he : pyStrip raw = ""
  · have hd : drainLines [raw] = [] := by
      simp [drainLines, he]
    simp [send_command, hd]
  · have hd : drainLines [raw] = [pyStrip raw] := by
      simp [drainLines, he]
    have hcont : isContent c (pyStrip raw) = false := by
      simp [isContent, h]
    simp [send_command, hd, List.find?, hcont, delayedRead, h]

theorem sendCommand_echo_only_none_witness :
    send_command "led on" ["LED ON\n"] none = none :=
  sendCommand_echo_only_none "led on" "LED ON\n" (by decide)

/-- C4 (counterexample): an I/O failure during the cycle and a normal
no-response transaction both come back to the caller as `None`; the error is
swallowed by the `except` handler, not surfaced as a `TransactionError`, so
the two outcomes are not distinguishable. -/
theorem sendCommand_error_not_distinguishable :
    send_command_caught "status" (.failure "serial write failed") = none
    ∧ send_command_caught "status" (.ok ["status"] none) = none := by
  decide

/-- C4 (amended): every failure during the send/receive cycle is caught
inside `send_command`, which returns `None` — the very value of the
no-response outcome — so error and no-response coincide for the caller. -/
theorem sendCommand_error_swallowed (c msg : String) (lines : List String)
    (delayed : Option String) (h : send_command c lines delayed = none) :
    send_command_caught c (.failure msg) = none
    ∧ send_command_caught c (.failure msg) =
        send_command_caught c (.ok lines delayed) := by
  simp [send_command_caught, h]

theorem sendCommand_error_swallowed_witness :
    send_command_caught "status" (.failure "device unplugged") = none
    ∧ send_command_caught "status" (.failure "device unplugged") =
        send_command_caught "status" (.ok ["status"] none) :=
  sendCommand_error_swallowed "status" "device unplugged" ["status"] none
    (by decide)

/-- C5: the flush at the start of a transaction makes the result independent
of whatever the prior transaction left in the buffer, and any returned line
originates from this transaction's device output (drained or delayed), never
from the stale buffer. -/
theorem sendCommand_flushes_stale (c : String) (stale dev : List String)
    (delayed : Option String) :
    send_command_after c stale dev delayed = send_command c dev delayed
    ∧ (∀ r, send_command_after c stale dev delayed = some r →
        ∃ raw, (raw ∈ dev ∨ delayed = some raw) ∧ r = pyStrip raw) := by
  constructor
  · rfl
  · intro r h
    have h' : send_command c dev delayed = some r := h
    obtain ⟨-, raw, hmem, heq⟩ := send_command_some h'
    exact ⟨raw, hmem, heq⟩

theorem sendCommand_flushes_stale_witness :
    send_command_after "status" ["OK:ON"] ["status", "STATE:ON"] none =
      some "STATE:ON"
    ∧ (∃ raw, (raw ∈ ["status", "STATE:ON"] ∨ (none : Option String) =
        some raw) ∧ "STATE:ON" = pyStrip raw) :=
  ⟨by decide,
   (sendCommand_flushes_stale "status" ["OK:ON"] ["status", "STATE:ON"]
      none).2 "STATE:ON" (by decide)⟩

/-- C6 (counterexample): when the port cannot be opened, `__init__` calls
`sys.exit(1)` — the outcome is process termination, not a typed
`ConnectionError` delivered to the caller. -/
theorem init_exits_not_typed_error :
    serialController_init "/dev/cu.usbserial-0001" 9600 1 false =
      InitResult.exitProcess 1
    ∧ InitResult.exitProcess 1 ≠
        InitResult.connectionError "could not open port" := by
  decide

/-- C6 (amended): whenever opening the port fails, `__init__` terminates the
process with exit code 1 and never delivers a typed connection failure to the
caller. -/
theorem init_failure_exits_process (port : String) (baudrate timeout : Nat)
    (msg : String) :
    serialController_init port baudrate timeout false =
      InitResult.exitProcess 1
    ∧ serialController_init port baudrate timeout false ≠
        InitResult.connectionError msg := by
  refine ⟨rfl, ?_⟩
  simp [serialController_init]

/-- C7: `close` never raises and is idempotent — for every connection state
it succeeds, and closing the resulting state again succeeds and leaves it
unchanged. -/
theorem close_idempotent_never_raises (sp : Option PortHandle) :
    ∃ sp', serialController_close sp = .ok sp'
      ∧ serialController_close sp' = .ok sp' := by
  match sp with
  | none => exact ⟨none, rfl, rfl⟩
  | some p =>
      cases hp : p.is_open
      · exact ⟨some p, by simp [serialController_close, hp],
          by simp [serialController_close, hp]⟩
      · exact ⟨some ⟨false⟩,
          by simp [serialController_close, portClose, hp, Except.map],
          by simp [serialController_close, portClose]⟩

/-- C8: a classifier failure degrades to the `"UNKNOWN"` intent, and any
intent outside the three recognized ones makes `execute_command` perform no
device action: no command is written to the link and the connection state is
returned unchanged. -/
theorem unknown_intent_no_device_action (msg : String)
    (conn : Option (List String)) (dev : DeviceModel) (intent : String)
    (h1 : intent ≠ "LED_ON") (h2 : intent ≠ "LED_OFF")
    (h3 : intent ≠ "STATUS") :
    parse_intent (.failure msg) = "UNKNOWN"
    ∧ (execute_command conn dev intent).2.1 = conn
    ∧ (execute_command conn dev intent).2.2 = [] := by
  refine ⟨rfl, ?_, ?_⟩ <;> cases conn <;>
    simp [execute_command, h1, h2, h3]

theorem unknown_intent_no_device_action_witness :
    parse_intent (.failure "ollama unreachable") = "UNKNOWN"
    ∧ (execute_command (some ["STATE:ON"]) (fun _ => ([], none))
        "UNKNOWN").2.1 = some ["STATE:ON"]
    ∧ (execute_command (some ["STATE:ON"]) (fun _ => ([], none))
        "UNKNOWN").2.2 = [] :=
  unknown_intent_no_device_action "ollama unreachable" (some ["STATE:ON"])
    (fun _ => ([], none)) "UNKNOWN" (by decide) (by decide) (by decide)

/-- C9: every string `send_command` returns is non-empty and already
stripped — stripping it again changes nothing and its last character is
never whitespace, so the line terminator is gone; the empty string is never
returned. -/
theorem sendCommand_result_nonempty_trimmed (c : String)
    (lines : List String) (delayed : Option String) (r : String)
    (h : send_command c lines delayed = some r) :
    r ≠ "" ∧ pyStrip r = r
    ∧ (∀ ch, r.data.getLast? = some ch → ch.isWhitespace = false) := by
  obtain ⟨hne, raw, hmem, rfl⟩ := send_command_some h
  exact ⟨hne, pyStrip_idem raw,
    fun ch hch => getLast?_stripChars raw.data hch⟩

theorem sendCommand_result_nonempty_trimmed_witness :
    "OK:ON" ≠ "" ∧ pyStrip "OK:ON" = "OK:ON"
    ∧ (∀ ch, "OK:ON".data.getLast? = some ch → ch.isWhitespace = false) :=
  sendCommand_result_nonempty_trimmed "led on" ["led on", " OK:ON\n"] none
    "OK:ON" (by decide)

/-- C10: the fallback read never compares the delayed line with the sent
command, so a device that echoes within the settle window and then emits a
second, delayed copy of the echo gets that echo returned as the transaction
result. -/
theorem sendCommand_delayed_echo_returned (c : String) (h1 : pyStrip c = c)
    (h2 : c ≠ "") (h3 : isPromptGlyph c = false) :
    send_command c [c] (some c) = some c := by
  have hd : drainLines [c] = [c] := by
    simp [drainLines, h1, h2]
  have hcont : isContent c c = false := by
    simp [isContent]
  simp [send_command, hd, List.find?, hcont, delayedRead, h1, h2, h3]

theorem sendCommand_delayed_echo_returned_witness :
    send_command "led on" ["led on"] (some "led on") = some "led on" :=
  sendCommand_delayed_echo_returned "led on" (by decide) (by decide)
    (by decide)

end LlmToMcu
